import Mathlib

/-!
# Verification of the `npy_data` derived-row schema (OSRS-Trade-Ledger)

Shallow embedding of the `npy_data` SQLite table and its generated columns,
together with a model of the derived store operated on by the update cycle.

Modelling conventions:
* a nullable SQL INTEGER column is `Option ℤ`, a NOT NULL one is `ℤ`;
* a SQL REAL value is modelled with exact rational arithmetic (`ℚ`);
* SQLite `CAST(x AS INTEGER)` truncates toward zero;
* SQLite integer division truncates toward zero (`Int.tdiv`);
* the SQL comparison `c > 0` is not true when `c` is NULL, so a `CASE WHEN`
  guard of shape `a > 0 AND b > 0` takes its THEN branch exactly when both
  columns are non-NULL and positive.
-/

namespace Npy

/-- Truth of the SQL condition `col > 0` under three-valued logic:
`NULL > 0` is unknown, hence not true. -/
def sqlGtZero : Option ℤ → Bool
  | some v => decide (0 < v)
  | none => false

/-- SQL `COALESCE(a, b, 0)` over two nullable INTEGER columns: the first
non-NULL value among `a`, `b`, `0`. -/
def coalesceZ (a b : Option ℤ) : ℤ :=
  match a with
  | some v => v
  | none =>
    match b with
    | some w => w
    | none => 0

/-- SQLite `CAST(q AS INTEGER)` on a numeric value: truncation toward zero. -/
def castInt (q : ℚ) : ℤ :=
  if 0 ≤ q then ⌊q⌋ else ⌈q⌉

/-- The schema expression `CAST(x * 0.01 AS INTEGER)`; the literal `0.01` is
modelled exactly as the rational `1 / 100`. -/
def centTrunc (x : ℤ) : ℤ :=
  castInt ((x : ℚ) * (1 / 100))

/-- NULL-propagating addition of two nullable INTEGER columns. -/
def optAdd : Option ℤ → Option ℤ → Option ℤ
  | some a, some b => some (a + b)
  | _, _ => none

/-- NULL-propagating subtraction of two nullable INTEGER columns. -/
def optSub : Option ℤ → Option ℤ → Option ℤ
  | some a, some b => some (a - b)
  | _, _ => none

/-- Generated column `avg5m_price`:
`CASE WHEN buy_price > 0 AND sell_price > 0 THEN (buy_price + sell_price) / 2
ELSE COALESCE(buy_price, sell_price, 0) END`.
In the THEN branch both columns are non-NULL, so `Option.getD 0` recovers
their values; the division is SQLite integer division. -/
def avg5m_price (buy_price sell_price : Option ℤ) : ℤ :=
  if sqlGtZero buy_price && sqlGtZero sell_price then
    Int.tdiv (buy_price.getD 0 + sell_price.getD 0) 2
  else
    coalesceZ buy_price sell_price

/-- Generated column `avg5m_volume`: `buy_volume + sell_volume`
(SQL addition, which propagates NULL). -/
def avg5m_volume (buy_volume sell_volume : Option ℤ) : Option ℤ :=
  optAdd buy_volume sell_volume

/-- Generated column `avg5m_margin`:
`CASE WHEN buy_price > 0 AND sell_price > 0
THEN sell_price - buy_price - CAST(sell_price * 0.01 as INTEGER) ELSE 0 END`. -/
def avg5m_margin (buy_price sell_price : Option ℤ) : ℤ :=
  if sqlGtZero buy_price && sqlGtZero sell_price then
    sell_price.getD 0 - buy_price.getD 0 - centTrunc (sell_price.getD 0)
  else 0

/-- The SQL expression `CAST(a - b AS REAL) / c` for nullable columns `a`, `b`
and a non-NULL divisor value `c`: NULL when either operand is NULL. -/
def diffRatio (a b : Option ℤ) (c : ℤ) : Option ℚ :=
  (optSub a b).map fun d => (d : ℚ) / (c : ℚ)

/-- Generated column `price_ratio_sell_buy`:
`CASE WHEN buy_price > 0 AND wiki_price > 0
THEN CAST(sell_price - buy_price AS REAL) / wiki_price ELSE 0 END`. -/
def price_ratio_sell_buy (buy_price sell_price wiki_price : Option ℤ) : Option ℚ :=
  if sqlGtZero buy_price && sqlGtZero wiki_price then
    diffRatio sell_price buy_price (wiki_price.getD 0)
  else some 0

/-- Generated column `price_ratio_buy_wiki`:
`CASE WHEN wiki_price > 0
THEN CAST(buy_price - wiki_price AS REAL) / wiki_price ELSE 0 END`. -/
def price_ratio_buy_wiki (buy_price wiki_price : Option ℤ) : Option ℚ :=
  if sqlGtZero wiki_price then
    diffRatio buy_price wiki_price (wiki_price.getD 0)
  else some 0

/-- Generated column `price_ratio_sell_wiki`:
`CASE WHEN wiki_price > 0
THEN CAST(sell_price - wiki_price AS REAL) / wiki_price ELSE 0 END`. -/
def price_ratio_sell_wiki (sell_price wiki_price : Option ℤ) : Option ℚ :=
  if sqlGtZero wiki_price then
    diffRatio sell_price wiki_price (wiki_price.getD 0)
  else some 0

/-- Generated column `rt_margin`:
`CASE WHEN rt_count > 0
THEN rt_max_price - rt_min_price - CAST(rt_avg_price * 0.01 as INTEGER)
ELSE 0 END` (arithmetic in the THEN branch propagates NULL). -/
def rt_margin (rt_count rt_min_price rt_max_price rt_avg_price : Option ℤ) : Option ℤ :=
  if sqlGtZero rt_count then
    optSub (optSub rt_max_price rt_min_price) (rt_avg_price.map centTrunc)
  else some 0

/-- The tax expression `LEAST(5000000, CAST(p * 0.01 as INTEGER))` as a
function of the price it is applied to. -/
def taxFormula (p : ℤ) : ℤ :=
  min 5000000 (centTrunc p)

/-- Generated column `tax`:
`LEAST(5000000, CAST(COALESCE(sell_price, wiki_price, 0) * 0.01 as INTEGER))`. -/
def tax (sell_price wiki_price : Option ℤ) : ℤ :=
  taxFormula (coalesceZ sell_price wiki_price)

lemma centTrunc_of_nonneg (x : ℤ) (hx : 0 ≤ x) : centTrunc x = x / 100 := by
  have hq : (0 : ℚ) ≤ (x : ℚ) * (1 / 100) := by
    have : (0 : ℚ) ≤ (x : ℚ) := by exact_mod_cast hx
    positivity
  have hrw : (x : ℚ) * (1 / 100) = (x : ℚ) / ((100 : ℕ) : ℚ) := by
    push_cast
    ring
  rw [centTrunc, castInt, if_pos hq, hrw, Rat.floor_intCast_div_natCast]
  norm_num

lemma taxFormula_of_nonneg (p : ℤ) (hp : 0 ≤ p) : taxFormula p = min 5000000 (p / 100) := by
  rw [taxFormula, centTrunc_of_nonneg p hp]

end Npy

namespace Npy

/-- C1, counterexample: the buy price 0 and the sell price 110 are both
present (non-NULL), yet the generated `avg5m_price` is 0 — not the floored
average 55 that the claim prescribes whenever both prices are present. -/
theorem C1_counterexample :
    avg5m_price (some 0) (some 110) = 0 ∧ (0 : ℤ) ≠ (0 + 110) / 2 := by
  constructor
  · simp [avg5m_price, sqlGtZero, coalesceZ]
  · decide

/-- C1 (amended): `avg5m_price` is the floored average only when both interval
prices are present AND positive; in every other case it is
`COALESCE(buy_price, sell_price, 0)`: the buy price when present (even when
zero or negative), else the sell price when present, else 0. In particular,
with only a buy observation and no sell observation it equals the buy price. -/
theorem C1_avg5m_price_fallback :
    (∀ b s : ℤ, 0 < b → 0 < s → avg5m_price (some b) (some s) = (b + s) / 2) ∧
    (∀ b s : ℤ, ¬(0 < b ∧ 0 < s) → avg5m_price (some b) (some s) = b) ∧
    (∀ b : ℤ, avg5m_price (some b) none = b) ∧
    (∀ s : ℤ, avg5m_price none (some s) = s) ∧
    avg5m_price none none = 0 := by
  refine ⟨fun b s hb hs => ?_, fun b s h => ?_, fun b => ?_, fun s => ?_, rfl⟩
  · have hcond : (sqlGtZero (some b) && sqlGtZero (some s)) = true := by
      simp [sqlGtZero, hb, hs]
    simp only [avg5m_price, hcond, if_true, Option.getD_some]
    exact Int.tdiv_eq_ediv (by omega) (by omega)
  · have hcond : ¬((sqlGtZero (some b) && sqlGtZero (some s)) = true) := by
      simp only [sqlGtZero, Bool.and_eq_true, decide_eq_true_eq]
      exact h
    simp only [avg5m_price, if_neg hcond]
    rfl
  · simp [avg5m_price, sqlGtZero, coalesceZ]
  · rfl

/-- Witness for C1: both prices present and positive gives the floored
average, and a lone buy price is passed through. -/
theorem C1_witness :
    avg5m_price (some 90) (some 110) = (90 + 110) / 2 ∧
    avg5m_price (some 42) none = 42 :=
  ⟨C1_avg5m_price_fallback.1 90 110 (by norm_num) (by norm_num),
   C1_avg5m_price_fallback.2.2.1 42⟩

/-- C2, counterexample: at reference price 100 and sell price 110 the
generated `price_ratio_sell_wiki` is `(sell − wiki) / wiki = 1/10`, not the
`(reference − sell) / reference = −1/10` the claim states. -/
theorem C2_counterexample :
    price_ratio_sell_wiki (some 110) (some 100) = some (1 / 10) ∧
    some ((1 : ℚ) / 10) ≠ some (((100 : ℚ) - 110) / 100) := by
  constructor
  · simp only [price_ratio_sell_wiki, sqlGtZero, diffRatio, optSub]
    norm_num
  · simp only [ne_eq, Option.some.injEq]
    norm_num

lemma sqlGtZero_iff (x : Option ℤ) : sqlGtZero x = true ↔ ∃ v, x = some v ∧ 0 < v := by
  cases x <;> simp [sqlGtZero]

/-- C2 (amended): the three ratio columns behave as follows.
`price_ratio_sell_buy` equals `(sell − buy) / wiki` when the buy and wiki
prices are present and positive (NULL, not 0, when the sell price is absent
while that gate holds) and 0 whenever the gate fails — the buy or wiki price
absent or non-positive; `price_ratio_buy_wiki` equals `(buy − wiki) / wiki`
gated only on `wiki > 0` (NULL when the buy price is absent, 0 whenever the
wiki price is absent or non-positive); `price_ratio_sell_wiki` equals
`(sell − wiki) / wiki` — the sign OPPOSITE to the claimed
`(reference − sell) / reference` — gated only on `wiki > 0` (NULL when the
sell price is absent, 0 whenever the wiki price is absent or non-positive).
At reference 100, buy 90, sell 110 the columns read 1/5, −1/10 and +1/10. -/
theorem C2_price_ratio_gaps :
    (∀ b s w : ℤ, 0 < b → 0 < w →
        price_ratio_sell_buy (some b) (some s) (some w) = some (((s : ℚ) - b) / w)) ∧
    (∀ buy sell wiki : Option ℤ,
        ¬(∃ b w : ℤ, buy = some b ∧ wiki = some w ∧ 0 < b ∧ 0 < w) →
        price_ratio_sell_buy buy sell wiki = some 0) ∧
    (∀ b w : ℤ, 0 < b → 0 < w → price_ratio_sell_buy (some b) none (some w) = none) ∧
    (∀ b w : ℤ, 0 < w →
        price_ratio_buy_wiki (some b) (some w) = some (((b : ℚ) - w) / w)) ∧
    (∀ w : ℤ, 0 < w → price_ratio_buy_wiki none (some w) = none) ∧
    (∀ buy wiki : Option ℤ, ¬(∃ w : ℤ, wiki = some w ∧ 0 < w) →
        price_ratio_buy_wiki buy wiki = some 0) ∧
    (∀ s w : ℤ, 0 < w →
        price_ratio_sell_wiki (some s) (some w) = some (((s : ℚ) - w) / w)) ∧
    (∀ w : ℤ, 0 < w → price_ratio_sell_wiki none (some w) = none) ∧
    (∀ sell wiki : Option ℤ, ¬(∃ w : ℤ, wiki = some w ∧ 0 < w) →
        price_ratio_sell_wiki sell wiki = some 0) ∧
    price_ratio_sell_buy (some 90) (some 110) (some 100) = some (1 / 5) ∧
    price_ratio_buy_wiki (some 90) (some 100) = some (-(1 / 10)) ∧
    price_ratio_sell_wiki (some 110) (some 100) = some (1 / 10) := by
  refine ⟨fun b s w hb hw => ?_, fun buy sell wiki h => ?_, fun b w hb hw => ?_,
    fun b w hw => ?_, fun w hw => ?_, fun buy wiki h => ?_,
    fun s w hw => ?_, fun w hw => ?_, fun sell wiki h => ?_, ?_, ?_, ?_⟩
  · simp [price_ratio_sell_buy, sqlGtZero, diffRatio, optSub, hb, hw]
  · have hgate : ¬((sqlGtZero buy && sqlGtZero wiki) = true) := by
      rw [Bool.and_eq_true]
      rintro ⟨hb, hw⟩
      obtain ⟨b, rfl, hb2⟩ := (sqlGtZero_iff buy).mp hb
      obtain ⟨w, rfl, hw2⟩ := (sqlGtZero_iff wiki).mp hw
      exact h ⟨b, w, rfl, rfl, hb2, hw2⟩
    simp only [price_ratio_sell_buy, if_neg hgate]
  · simp [price_ratio_sell_buy, sqlGtZero, diffRatio, optSub, hb, hw]
  · simp [price_ratio_buy_wiki, sqlGtZero, diffRatio, optSub, hw]
  · simp [price_ratio_buy_wiki, sqlGtZero, diffRatio, optSub, hw]
  · have hgate : ¬(sqlGtZero wiki = true) := by
      intro hw
      obtain ⟨w, rfl, hw2⟩ := (sqlGtZero_iff wiki).mp hw
      exact h ⟨w, rfl, hw2⟩
    simp only [price_ratio_buy_wiki, if_neg hgate]
  · simp [price_ratio_sell_wiki, sqlGtZero, diffRatio, optSub, hw]
  · simp [price_ratio_sell_wiki, sqlGtZero, diffRatio, optSub, hw]
  · have hgate : ¬(sqlGtZero wiki = true) := by
      intro hw
      obtain ⟨w, rfl, hw2⟩ := (sqlGtZero_iff wiki).mp hw
      exact h ⟨w, rfl, hw2⟩
    simp only [price_ratio_sell_wiki, if_neg hgate]
  · simp only [price_ratio_sell_buy, sqlGtZero, diffRatio, optSub]
    norm_num
  · simp only [price_ratio_buy_wiki, sqlGtZero, diffRatio, optSub]
    norm_num
  · simp only [price_ratio_sell_wiki, sqlGtZero, diffRatio, optSub]
    norm_num

/-- Witness for C2: the gated formulas evaluated at reference 100, buy 90,
sell 110, a failed gate at a present-but-zero buy price, and a failed gate
at an absent wiki price. -/
theorem C2_witness :
    price_ratio_buy_wiki (some 90) (some 100) = some (((90 : ℚ) - 100) / 100) ∧
    price_ratio_sell_wiki (some 110) (some 100) = some (((110 : ℚ) - 100) / 100) ∧
    price_ratio_sell_buy (some 0) (some 110) (some 100) = some 0 ∧
    price_ratio_sell_wiki (some 110) none = some 0 :=
  ⟨C2_price_ratio_gaps.2.2.2.1 90 100 (by norm_num),
   C2_price_ratio_gaps.2.2.2.2.2.2.1 110 100 (by norm_num),
   C2_price_ratio_gaps.2.1 (some 0) (some 110) (some 100) (by simp),
   C2_price_ratio_gaps.2.2.2.2.2.2.2.2.1 (some 110) none (by simp)⟩

/-- C3, counterexample: with buy price 1 and sell price 1,000,000,000 the
generated `avg5m_margin` is 989,999,999: the code subtracts the uncapped
`CAST(sell_price * 0.01 AS INTEGER) = 10,000,000`, whereas the claim
prescribes subtracting `tax(sell) = min(5,000,000, 10,000,000) = 5,000,000`,
i.e. a margin of 994,999,999. -/
theorem C3_counterexample :
    avg5m_margin (some 1) (some 1000000000) = 989999999 ∧
    (989999999 : ℤ) ≠ 1000000000 - 1 - min 5000000 (1000000000 / 100) := by
  constructor
  · simp [avg5m_margin, sqlGtZero, centTrunc_of_nonneg 1000000000 (by decide)]
  · decide

/-- C3 (amended): when both interval prices are present and positive, the
generated `avg5m_margin` equals `sell − buy − ⌊sell × 0.01⌋` with NO
5,000,000 cap on the subtracted tax term; in every other case (either price
absent, or either price non-positive) it is 0. -/
theorem C3_avg5m_margin_uncapped :
    (∀ b s : ℤ, 0 < b → 0 < s → avg5m_margin (some b) (some s) = s - b - s / 100) ∧
    (∀ b s : ℤ, ¬(0 < b ∧ 0 < s) → avg5m_margin (some b) (some s) = 0) ∧
    (∀ v : Option ℤ, avg5m_margin none v = 0) ∧
    (∀ v : Option ℤ, avg5m_margin v none = 0) := by
  refine ⟨fun b s hb hs => ?_, fun b s h => ?_, fun v => rfl, fun v => ?_⟩
  · have hcond : (sqlGtZero (some b) && sqlGtZero (some s)) = true := by
      simp [sqlGtZero, hb, hs]
    simp only [avg5m_margin, hcond, if_true, Option.getD_some,
      centTrunc_of_nonneg s (le_of_lt hs)]
  · have hcond : ¬((sqlGtZero (some b) && sqlGtZero (some s)) = true) := by
      simp only [sqlGtZero, Bool.and_eq_true, decide_eq_true_eq]
      exact h
    simp only [avg5m_margin, if_neg hcond]
  · cases v <;> simp [avg5m_margin, sqlGtZero]

/-- Witness for C3: a positive pair gives the uncapped margin and a
present-but-zero buy price gives margin 0. -/
theorem C3_witness :
    avg5m_margin (some 90) (some 110) = 110 - 90 - 110 / 100 ∧
    avg5m_margin (some 0) (some 110) = 0 :=
  ⟨C3_avg5m_margin_uncapped.1 90 110 (by norm_num) (by norm_num),
   C3_avg5m_margin_uncapped.2.1 0 110 (by omega)⟩

/-- C4, counterexample: with an absent buy volume and a present sell volume 5
the generated `avg5m_volume` is NULL — the absent side is not treated as
zero, and the combined volume is not the defined value 5 the claim requires
when at least one side is present. -/
theorem C4_counterexample :
    avg5m_volume none (some 5) = none ∧ (none : Option ℤ) ≠ some (0 + 5) :=
  ⟨rfl, by decide⟩

/-- C4 (amended): `avg5m_volume` is the sum of the two interval volumes when
both are present, and NULL (absent) whenever either side is absent. -/
theorem C4_avg5m_volume_nullprop :
    (∀ bv sv : ℤ, avg5m_volume (some bv) (some sv) = some (bv + sv)) ∧
    (∀ v : Option ℤ, avg5m_volume none v = none) ∧
    (∀ v : Option ℤ, avg5m_volume v none = none) := by
  refine ⟨fun bv sv => rfl, fun v => rfl, fun v => ?_⟩
  cases v <;> rfl

/-- C5: the tax expression `LEAST(5000000, CAST(p * 0.01 AS INTEGER))`
equals `min(5,000,000, ⌊p / 100⌋)` for every non-negative integer price;
in particular the cap applies at 500,000,000 and `tax 1000 = 10`. -/
theorem C5_tax_formula :
    (∀ p : ℕ, taxFormula p = min 5000000 ((p : ℤ) / 100)) ∧
    taxFormula 500000000 = 5000000 ∧ taxFormula 1000 = 10 := by
  refine ⟨fun p => taxFormula_of_nonneg p (Int.natCast_nonneg p), ?_, ?_⟩
  · rw [taxFormula_of_nonneg 500000000 (by decide)]
    decide
  · rw [taxFormula_of_nonneg 1000 (by decide)]
    decide

/-- C6: at `rt_count = 1`, `rt_min_price = 0`,
`rt_max_price = rt_avg_price = 1,000,000,000` the generated `rt_margin` is
990,000,000: the code subtracts the uncapped
`CAST(rt_avg_price * 0.01 AS INTEGER) = 10,000,000`, while the claim (and
the schema's own capped `tax` column) prescribe subtracting
`min(5,000,000, 10,000,000)`, i.e. a margin of 995,000,000. -/
theorem C6_rt_margin_uncapped :
    rt_margin (some 1) (some 0) (some 1000000000) (some 1000000000) =
      some 990000000 ∧
    (990000000 : ℤ) ≠ 1000000000 - 0 - min 5000000 (1000000000 / 100) := by
  constructor
  · simp [rt_margin, sqlGtZero, optSub, centTrunc_of_nonneg 1000000000 (by decide)]
  · decide

/-- C9: the stored `tax` column is computed from
`COALESCE(sell_price, wiki_price, 0)`: from the sell interval price when it
is non-NULL, else from the snapshot (wiki) price when it is non-NULL, else
from zero, capped at 5,000,000. -/
theorem C9_tax_coalesce :
    (∀ (s : ℤ) (w : Option ℤ), 0 ≤ s → tax (some s) w = min 5000000 (s / 100)) ∧
    (∀ w : ℤ, 0 ≤ w → tax none (some w) = min 5000000 (w / 100)) ∧
    tax none none = 0 := by
  refine ⟨fun s w hs => ?_, fun w hw => ?_, ?_⟩
  · show taxFormula s = _
    exact taxFormula_of_nonneg s hs
  · show taxFormula w = _
    exact taxFormula_of_nonneg w hw
  · show taxFormula 0 = 0
    rw [taxFormula_of_nonneg 0 le_rfl]
    decide

/-- Witness for C9: the column reads the sell price 1000 when present and
falls back to the wiki price 500 when the sell price is NULL. -/
theorem C9_witness :
    tax (some 1000) none = min 5000000 (1000 / 100) ∧
    tax none (some 500) = min 5000000 (500 / 100) :=
  ⟨C9_tax_coalesce.1 1000 none (by decide), C9_tax_coalesce.2.1 500 (by decide)⟩

end Npy

namespace Npy

/-- Stored (non-generated) columns of one `npy_data` row; the generated
columns above are pure functions of these. The `id INTEGER PRIMARY KEY`
rowid alias is omitted. NOT NULL columns are `ℤ`, nullable ones `Option ℤ`,
and the REAL `volume_coefficient` is `Option ℚ`. -/
structure NpyRow where
  item_id : ℤ
  timestamp : ℤ
  minute : ℤ
  hour : ℤ
  day : ℤ
  month : ℤ
  year : ℤ
  weekday : ℤ
  hour_timestamp : ℤ
  day_timestamp : ℤ
  week_timestamp : ℤ
  wiki_timestamp : Option ℤ
  wiki_price : Option ℤ
  wiki_volume : Option ℤ
  buy_price : Option ℤ
  buy_volume : Option ℤ
  sell_price : Option ℤ
  sell_volume : Option ℤ
  rt_avg_price : Option ℤ
  rt_min_price : Option ℤ
  rt_max_price : Option ℤ
  rt_count : Option ℤ
  volume_coefficient : Option ℚ
deriving DecidableEq

/-- Whether row `r` carries the UNIQUE key `(item_id, timestamp) = (i, t)`. -/
def keyHit (i t : ℤ) (r : NpyRow) : Bool :=
  decide (r.item_id = i) && decide (r.timestamp = t)

/-- Whether two rows share their `UNIQUE (item_id, timestamp)` key. -/
def sameKey (r q : NpyRow) : Bool :=
  decide (q.item_id = r.item_id) && decide (q.timestamp = r.timestamp)

/-- Number of stored rows carrying the key `(i, t)`. -/
def keyCount (s : List NpyRow) (i t : ℤ) : ℕ :=
  s.countP (keyHit i t)

/-- The schema CHECK constraints on the calendar columns:
`minute BETWEEN 0 AND 59`, `hour BETWEEN 0 AND 23`, `day BETWEEN 1 AND 31`,
`month BETWEEN 1 AND 12`, `weekday BETWEEN 0 AND 6`. -/
def rowChecks (r : NpyRow) : Bool :=
  decide (0 ≤ r.minute) && decide (r.minute ≤ 59) &&
  decide (0 ≤ r.hour) && decide (r.hour ≤ 23) &&
  decide (1 ≤ r.day) && decide (r.day ≤ 31) &&
  decide (1 ≤ r.month) && decide (r.month ≤ 12) &&
  decide (0 ≤ r.weekday) && decide (r.weekday ≤ 6)

/-- Modelled from the spec: the Committing step "atomically upsert(s) the
computed DerivedRows" — the upsert operation itself is not among the
sources, which contain only the schema's `UNIQUE (item_id, timestamp)`
constraint. Writing a row whose key is already present replaces the old
row instead of adding a second one. -/
def upsert (r : NpyRow) (s : List NpyRow) : List NpyRow :=
  r :: s.filter fun q => !sameKey r q

/-- An insert validated against the schema CHECK constraints: a row violating
them is rejected and the stored rows are left unchanged. -/
def insertChecked (r : NpyRow) (s : List NpyRow) : List NpyRow :=
  if rowChecks r then upsert r s else s

/-- The npy database retention timespan of 456 days, in seconds. -/
def retentionWindow : ℤ :=
  456 * 86400

/-- Modelled from the spec: the Retention Manager "Deletes DerivedRows with
anchor < now − R"; only the 456-day value of R appears in the sources. -/
def retentionPrune (now : ℤ) (s : List NpyRow) : List NpyRow :=
  s.filter fun r => decide (now - retentionWindow ≤ r.timestamp)

/-- Modelled from the spec: one update cycle commits a batch of synthesized
rows by (checked) upsert and then runs the Retention Manager. -/
def updateCycle (now : ℤ) (batch : List NpyRow) (s : List NpyRow) : List NpyRow :=
  retentionPrune now (batch.foldl (fun acc r => insertChecked r acc) s)

/-- States of the derived store reachable from the empty store by checked
inserts/upserts and retention pruning. -/
inductive Reachable : List NpyRow → Prop
  | empty : Reachable []
  | insert (r : NpyRow) {s : List NpyRow} : Reachable s → Reachable (insertChecked r s)
  | prune (now : ℤ) {s : List NpyRow} : Reachable s → Reachable (retentionPrune now s)

lemma keyCount_filter_le (p : NpyRow → Bool) (s : List NpyRow) (i t : ℤ) :
    keyCount (s.filter p) i t ≤ keyCount s i t :=
  (List.filter_sublist s).countP_le (keyHit i t)

lemma keyCount_upsert_le (r : NpyRow) (s : List NpyRow) (i t : ℤ)
    (hs : keyCount s i t ≤ 1) : keyCount (upsert r s) i t ≤ 1 := by
  rw [upsert, keyCount, List.countP_cons]
  by_cases hr : keyHit i t r = true
  · have hzero : (s.filter fun q => !sameKey r q).countP (keyHit i t) = 0 := by
      rw [List.countP_eq_zero]
      intro q hq
      have hmem := List.mem_filter.mp hq
      have hkey := hmem.2
      intro hqhit
      have h1 : q.item_id = i ∧ q.timestamp = t := by
        have := of_decide_eq_true (Bool.and_elim_left hqhit)
        have h2 := of_decide_eq_true (Bool.and_elim_right hqhit)
        exact ⟨this, h2⟩
      have h3 : r.item_id = i ∧ r.timestamp = t := by
        have := of_decide_eq_true (Bool.and_elim_left hr)
        have h4 := of_decide_eq_true (Bool.and_elim_right hr)
        exact ⟨this, h4⟩
      have : sameKey r q = true := by
        rw [sameKey]
        refine Bool.and_eq_true_iff.mpr ⟨decide_eq_true ?_, decide_eq_true ?_⟩
        · rw [h1.1, h3.1]
        · rw [h1.2, h3.2]
      simp [this] at hkey
    simp [hr, hzero]
  · have hr2 : keyHit i t r = false := by
      revert hr
      cases keyHit i t r <;> simp
    have hle : (s.filter fun q => !sameKey r q).countP (keyHit i t) ≤ 1 :=
      le_trans (keyCount_filter_le _ s i t) hs
    simp only [hr2]
    simpa using hle

/-- C7: in every reachable state of the derived store there is at most one
row per `(item_id, timestamp)` key; checked inserts/upserts (which replace
an existing row with the same key) and retention deletion preserve this
uniqueness. -/
theorem C7_key_uniqueness {s : List NpyRow} (h : Reachable s) (i t : ℤ) :
    keyCount s i t ≤ 1 := by
  induction h with
  | empty => simp [keyCount]
  | insert r hs ih =>
    rw [insertChecked]
    by_cases hc : rowChecks r = true
    · rw [if_pos hc]
      exact keyCount_upsert_le r _ i t ih
    · rw [if_neg hc]
      exact ih
  | prune now hs ih =>
    exact le_trans (keyCount_filter_le _ _ i t) ih

/-- C8: every row present after an update cycle run at time `now` has its
anchor within the 456-day retention window. -/
theorem C8_retention {now : ℤ} {batch s : List NpyRow} {r : NpyRow}
    (h : r ∈ updateCycle now batch s) : now - retentionWindow ≤ r.timestamp := by
  rw [updateCycle, retentionPrune] at h
  exact of_decide_eq_true (List.mem_filter.mp h).2

lemma reachable_rowChecks {s : List NpyRow} (h : Reachable s) :
    ∀ r ∈ s, rowChecks r = true := by
  induction h with
  | empty => intro r hr; cases hr
  | insert q hs ih =>
    intro r hr
    rw [insertChecked] at hr
    by_cases hc : rowChecks q = true
    · rw [if_pos hc, upsert] at hr
      rcases List.mem_cons.mp hr with hEq | hMem
      · rw [hEq]; exact hc
      · exact ih r (List.mem_filter.mp hMem).1
    · rw [if_neg hc] at hr
      exact ih r hr
  | prune now hs ih =>
    intro r hr
    exact ih r (List.mem_filter.mp hr).1

/-- C10: every row of a reachable derived-store state satisfies the calendar
range constraints of the schema, and an attempted insert of a row violating
any of them fails, leaving the stored rows unchanged. -/
theorem C10_calendar_checks :
    (∀ s : List NpyRow, Reachable s → ∀ r ∈ s,
        (0 ≤ r.minute ∧ r.minute ≤ 59) ∧ (0 ≤ r.hour ∧ r.hour ≤ 23) ∧
        (1 ≤ r.day ∧ r.day ≤ 31) ∧ (1 ≤ r.month ∧ r.month ≤ 12) ∧
        (0 ≤ r.weekday ∧ r.weekday ≤ 6)) ∧
    (∀ (r : NpyRow) (s : List NpyRow), rowChecks r = false → insertChecked r s = s) := by
  constructor
  · intro s hs r hr
    have h := reachable_rowChecks hs r hr
    rw [rowChecks] at h
    simp only [Bool.and_eq_true, decide_eq_true_eq] at h
    exact ⟨⟨h.1.1.1.1.1.1.1.1.1, h.1.1.1.1.1.1.1.1.2⟩,
      ⟨h.1.1.1.1.1.1.1.2, h.1.1.1.1.1.1.2⟩,
      ⟨h.1.1.1.1.1.2, h.1.1.1.1.2⟩,
      ⟨h.1.1.1.2, h.1.1.2⟩, ⟨h.1.2, h.2⟩⟩
  · intro r s hf
    rw [insertChecked, hf]
    simp

end Npy

namespace Npy

/-- A concrete well-formed row: anchor 300 (1970-01-01 00:05 UTC, a
Thursday), item 2, with interval data present. -/
def sampleRow : NpyRow :=
  ⟨2, 300, 5, 0, 1, 1, 1970, 3, 0, 0, 0, none, none, none, some 90, some 10,
   some 110, some 12, none, none, none, none, none⟩

/-- A row violating the `minute BETWEEN 0 AND 59` CHECK constraint. -/
def badRow : NpyRow :=
  ⟨2, 300, 60, 0, 1, 1, 1970, 3, 0, 0, 0, none, none, none, none, none,
   none, none, none, none, none, none, none⟩

/-- Witness for C7: after writing the same `(item_id, timestamp)` key twice
into the empty store, the key is still carried by at most one row. -/
theorem C7_witness :
    keyCount (insertChecked sampleRow (insertChecked sampleRow [])) 2 300 ≤ 1 :=
  C7_key_uniqueness
    (Reachable.insert sampleRow (Reachable.insert sampleRow Reachable.empty)) 2 300

/-- Witness for C8: the sample row survives a cycle run at `now = 300` and
its anchor lies within the retention window. -/
theorem C8_witness :
    sampleRow ∈ updateCycle 300 [sampleRow] [] ∧
    300 - retentionWindow ≤ sampleRow.timestamp :=
  ⟨by decide, @C8_retention 300 [sampleRow] [] sampleRow (by decide)⟩

/-- Witness for C10: the sample row stored through a checked insert satisfies
every calendar range, and inserting the invalid row into the empty store
leaves it empty. -/
theorem C10_witness :
    ((0 ≤ sampleRow.minute ∧ sampleRow.minute ≤ 59) ∧
      (0 ≤ sampleRow.hour ∧ sampleRow.hour ≤ 23) ∧
      (1 ≤ sampleRow.day ∧ sampleRow.day ≤ 31) ∧
      (1 ≤ sampleRow.month ∧ sampleRow.month ≤ 12) ∧
      (0 ≤ sampleRow.weekday ∧ sampleRow.weekday ≤ 6)) ∧
    insertChecked badRow [] = [] :=
  ⟨C10_calendar_checks.1 (insertChecked sampleRow [])
      (Reachable.insert sampleRow Reachable.empty) sampleRow (by decide),
   C10_calendar_checks.2 badRow [] (by decide)⟩

end Npy
